import Mathlib

/-!
Verification development for the Seekly installation helper scripts
(`install.py`, `pipx_install.py`).  The Python code is shallowly embedded:
ambient OS state (environment variables, filesystem, subprocess outcomes)
becomes explicit input, and the functions become pure Lean functions over
that input.  Machine-level details (actual process spawning, terminal
output) are out of the model; the decision logic, file edits and return
values are transcribed from the source.
-/

namespace Seekly

/-! ## String containment (Python's `needle in hay` substring test) -/

/-- `listStartsWith l p` is true when `p` is an initial segment of `l`.
Used to build the substring test. -/
def listStartsWith : List Char → List Char → Bool
  | _, [] => true
  | [], _ :: _ => false
  | a :: as, b :: bs => a == b && listStartsWith as bs

/-- `listHasSub hay needle` is true when `needle` occurs contiguously in
`hay`: the embedding of Python's `needle in hay` on strings. -/
def listHasSub : List Char → List Char → Bool
  | [], needle => needle.isEmpty
  | h :: t, needle => listStartsWith (h :: t) needle || listHasSub t needle

/-- Python's substring containment `needle in hay`. -/
def strContains (hay needle : String) : Bool :=
  listHasSub hay.data needle.data

theorem listStartsWith_append_self (n r : List Char) :
    listStartsWith (n ++ r) n = true := by
  induction n with
  | nil => simp [listStartsWith]
  | cons a as ih => simp [listStartsWith, ih]

theorem listHasSub_of_startsWith {hay n : List Char}
    (h : listStartsWith hay n = true) : listHasSub hay n = true := by
  cases hay with
  | nil =>
    cases n with
    | nil => rfl
    | cons b bs => simp [listStartsWith] at h
  | cons a as => simp [listHasSub, h]

/-- A list that is literally of the form `x ++ n ++ y` contains `n`. -/
theorem listHasSub_mid (x n y : List Char) :
    listHasSub (x ++ n ++ y) n = true := by
  induction x with
  | nil =>
    simp only [List.nil_append]
    exact listHasSub_of_startsWith (listStartsWith_append_self n y)
  | cons a as ih =>
    simp only [List.cons_append, List.append_assoc] at ih ⊢
    simp [listHasSub, ih]

theorem strContains_append_mid (x n y : String) :
    strContains (x ++ n ++ y) n = true := by
  have hx : (x ++ n ++ y).data = x.data ++ n.data ++ y.data := by
    simp [String.data_append]
  simp only [strContains, hx]
  exact listHasSub_mid x.data n.data y.data

/-! ## Filesystem and environment model -/

/-- A filesystem snapshot: an association list from absolute paths to file
contents.  A path is "existing" when it has an entry. -/
abbrev FSModel := List (String × String)

/-- Content of path `p`, `none` when the file does not exist. -/
def lookupFile : FSModel → String → Option String
  | [], _ => none
  | (q, c) :: t, p => if p = q then some c else lookupFile t p

/-- Create or overwrite path `p` with content `c`. -/
def setFile : FSModel → String → String → FSModel
  | [], p, c => [(p, c)]
  | (q, d) :: t, p, c => if p = q then (p, c) :: t else (q, d) :: setFile t p c

/-- `os.path.exists`. -/
def fileExistsB (fs : FSModel) (p : String) : Bool :=
  (lookupFile fs p).isSome

/-- Appending to a file opened with mode `a+`: creates the file when it is
missing. -/
def appendFile (fs : FSModel) (p s : String) : FSModel :=
  match lookupFile fs p with
  | some c => setFile fs p (c ++ s)
  | none => setFile fs p s

/-- `shutil.copy src dst` (no-op when the source is missing, which in the
script cannot happen because existence is checked first). -/
def copyFile (fs : FSModel) (src dst : String) : FSModel :=
  match lookupFile fs src with
  | some c => setFile fs dst c
  | none => fs

theorem lookupFile_setFile_self (fs : FSModel) (p c : String) :
    lookupFile (setFile fs p c) p = some c := by
  induction fs with
  | nil => simp [setFile, lookupFile]
  | cons hd t ih =>
    obtain ⟨q, d⟩ := hd
    by_cases h : p = q
    · simp [setFile, lookupFile, h]
    · simp [setFile, lookupFile, h, ih]

theorem lookupFile_setFile_ne (fs : FSModel) {p q : String} (c : String)
    (h : p ≠ q) : lookupFile (setFile fs q c) p = lookupFile fs p := by
  induction fs with
  | nil => simp [setFile, lookupFile, h]
  | cons hd t ih =>
    obtain ⟨r, d⟩ := hd
    by_cases hq : q = r
    · subst hq
      simp [setFile, lookupFile, h]
    · by_cases hp : p = r <;> simp [setFile, lookupFile, hq, hp, ih]

/-- The result of `os.environ.get("SHELL", "")` and
`os.environ.get("PATH", "")` for one run. -/
structure EnvVars where
  shellVar : String
  pathVar : String

/-- Split a character list at every occurrence of `sep`, keeping empty
pieces, exactly as Python's `str.split(sep)` does. -/
def splitCharList (sep : Char) : List Char → List (List Char)
  | [] => [[]]
  | c :: t =>
    let r := splitCharList sep t
    if c == sep then [] :: r
    else
      match r with
      | [] => [[c]]
      | h :: rest => (c :: h) :: rest

/-- PATH interpreted as a list of directory entries (POSIX separator),
as `os.environ.get("PATH", "").split(os.pathsep)` would produce it. -/
def pathEntries (path : String) : List String :=
  (splitCharList ':' path.data).map (fun l => String.mk l)

/-! ## `pipx_install.update_user_path`, POSIX branch -/

/-- Shell start-up file selection in `update_user_path`
(`pipx_install.py` lines 142-153).  `os.path.expanduser` is modelled by
replacing the leading `~` with `home`. -/
def shell_rc_path (home shell : String) : String :=
  if strContains shell "bash" then home ++ "/.bashrc"
  else if strContains shell "zsh" then home ++ "/.zshrc"
  else if strContains shell "fish" then home ++ "/.config/fish/config.fish"
  else home ++ "/.profile"

/-- The two-line block appended to the shell config
(`pipx_install.py` lines 179-183). -/
def exportLine (shell bin_dir : String) : String :=
  if strContains shell "fish" then
    "\n# Added by Seekly installer\nset -x PATH " ++ bin_dir ++ " $PATH\n"
  else
    "\n# Added by Seekly installer\nexport PATH=\"" ++ bin_dir ++ ":$PATH\"\n"

/-- Backup step (`pipx_install.py` lines 159-165): copy the rc file to
`<rc>.seekly_bak` when the rc file exists and the backup does not. -/
def backupStep (fs : FSModel) (rc : String) : FSModel :=
  if fileExistsB fs rc && !fileExistsB fs (rc ++ ".seekly_bak") then
    copyFile fs rc (rc ++ ".seekly_bak")
  else fs

/-- Duplicate check (`pipx_install.py` lines 167-175): the file exists and
its content contains `needle` as a substring. -/
def fileHasStr (fs : FSModel) (p needle : String) : Bool :=
  match lookupFile fs p with
  | some c => strContains c needle
  | none => false

/-- `update_user_path` for non-Windows systems (`pipx_install.py`
lines 139-187).  The `except` arms never fire in this pure model, so the
fall-through results are the no-error ones; in particular the final append
always succeeds and the function returns `True` on every path. -/
def update_user_path_unix (home bin_dir : String) (env : EnvVars)
    (fs : FSModel) : Bool × FSModel :=
  let shell := env.shellVar
  let rc := shell_rc_path home shell
  if strContains env.pathVar bin_dir then (true, fs)
  else
    let fs1 := backupStep fs rc
    if fileHasStr fs1 rc bin_dir then (true, fs1)
    else (true, appendFile fs1 rc (exportLine shell bin_dir))

/-- `update_user_path` for Windows (`pipx_install.py` lines 134-138).
The exit status of the spawned `setx` command is an input that the code
discards (`os.system`'s return value is unused); the in-process `PATH`
gets `;bin_dir` appended and the function returns `True`. -/
def update_user_path_windows (bin_dir path : String) (setxExit : Int) :
    Bool × String :=
  let _ := setxExit
  (true, path ++ ";" ++ bin_dir)

theorem string_ne_append_of_pos {s t : String} (ht : 0 < t.length) :
    s ≠ s ++ t := by
  intro h
  have hlen : s.length = s.length + t.length := by
    conv_lhs => rw [h]
    exact String.length_append s t
  omega

theorem rc_ne_backup (rc : String) : rc ≠ rc ++ ".seekly_bak" :=
  string_ne_append_of_pos (by decide)

/-- The backup step never changes the rc file itself. -/
theorem lookupFile_backupStep (fs : FSModel) (rc : String) :
    lookupFile (backupStep fs rc) rc = lookupFile fs rc := by
  unfold backupStep
  by_cases h : (fileExistsB fs rc && !fileExistsB fs (rc ++ ".seekly_bak")) = true
  · simp only [h, if_true]
    unfold copyFile
    cases hc : lookupFile fs rc with
    | none => exact hc
    | some c => exact (lookupFile_setFile_ne fs c (rc_ne_backup rc)).trans hc
  · simp only [h]
    simp

/-- The backup step never changes any file other than the backup path. -/
theorem lookupFile_backupStep_other (fs : FSModel) (rc p : String)
    (hp : p ≠ rc ++ ".seekly_bak") :
    lookupFile (backupStep fs rc) p = lookupFile fs p := by
  unfold backupStep
  by_cases h : (fileExistsB fs rc && !fileExistsB fs (rc ++ ".seekly_bak")) = true
  · simp only [h, if_true]
    unfold copyFile
    cases hc : lookupFile fs rc with
    | none => rfl
    | some c => exact lookupFile_setFile_ne fs c hp
  · simp only [h]
    simp

/-- After appending, the file content is the old content (empty for a
missing file) followed by the appended text. -/
theorem lookupFile_appendFile_self (fs : FSModel) (p s : String) :
    lookupFile (appendFile fs p s) p =
      some ((lookupFile fs p).getD "" ++ s) := by
  unfold appendFile
  cases hc : lookupFile fs p with
  | none =>
    simp only [Option.getD]
    have := lookupFile_setFile_self fs p s
    simpa using this
  | some c =>
    simp only [Option.getD]
    exact lookupFile_setFile_self fs p (c ++ s)

theorem lookupFile_appendFile_ne (fs : FSModel) {p q : String} (s : String)
    (h : p ≠ q) : lookupFile (appendFile fs q s) p = lookupFile fs p := by
  unfold appendFile
  cases hc : lookupFile fs q with
  | none => exact lookupFile_setFile_ne fs s h
  | some c => exact lookupFile_setFile_ne fs (c ++ s) h

/-- The export block always contains the directory string verbatim. -/
theorem exportLine_contains (shell bin_dir : String) :
    strContains (exportLine shell bin_dir) bin_dir = true := by
  unfold exportLine
  by_cases h : strContains shell "fish" = true
  · simp only [h, if_true]
    exact strContains_append_mid "\n# Added by Seekly installer\nset -x PATH " bin_dir " $PATH\n"
  · simp only [h, if_false]
    simpa using
      strContains_append_mid "\n# Added by Seekly installer\nexport PATH=\"" bin_dir ":$PATH\"\n"

/-! ## Helper lemmas for the `update_user_path` claims -/

theorem listHasSub_append_right (a : List Char) {b n : List Char}
    (h : listHasSub b n = true) : listHasSub (a ++ b) n = true := by
  induction a with
  | nil => simpa using h
  | cons c cs ih => simp [listHasSub, ih]

theorem strContains_append_right (a : String) {b n : String}
    (h : strContains b n = true) : strContains (a ++ b) n = true := by
  simp only [strContains, String.data_append]
  exact listHasSub_append_right a.data h

/-- The success flag of the POSIX `update_user_path` is `true` on every
no-error path. -/
theorem update_user_path_unix_fst (home bin_dir : String) (env : EnvVars)
    (fs : FSModel) :
    (update_user_path_unix home bin_dir env fs).1 = true := by
  unfold update_user_path_unix
  dsimp only
  split
  · rfl
  · split <;> rfl

theorem fileHasStr_backupStep (fs : FSModel) (rc n : String) :
    fileHasStr (backupStep fs rc) rc n = fileHasStr fs rc n := by
  unfold fileHasStr
  rw [lookupFile_backupStep]

/-- A start-up file path with a dedicated (non-fallback) shell mapped to
it by `update_user_path`'s selection logic. -/
def dedicatedRcFile (home p : String) : Prop :=
  p ≠ home ++ "/.profile" ∧ ∃ shell, shell_rc_path home shell = p

theorem dedicatedRcFile_cases {home p : String} (h : dedicatedRcFile home p) :
    p = home ++ "/.bashrc" ∨ p = home ++ "/.zshrc" ∨
      p = home ++ "/.config/fish/config.fish" := by
  obtain ⟨hne, s, hs⟩ := h
  unfold shell_rc_path at hs
  by_cases h1 : strContains s "bash" = true
  · simp only [h1, if_true] at hs
    exact Or.inl hs.symm
  · simp only [h1] at hs
    by_cases h2 : strContains s "zsh" = true
    · simp only [h2, if_true] at hs
      simp only [Bool.false_eq_true, if_false] at hs
      exact Or.inr (Or.inl hs.symm)
    · simp only [h2, Bool.false_eq_true, if_false] at hs
      by_cases h3 : strContains s "fish" = true
      · simp only [h3, if_true] at hs
        exact Or.inr (Or.inr hs.symm)
      · simp only [h3, Bool.false_eq_true, if_false] at hs
        exact absurd hs.symm hne

/-! ## Claim C1: shell start-up file selection -/

/-- C1 counterexample: the claim presupposes four recognized shells, each
with its own dedicated start-up file besides the generic fallback
`~/.profile`.  The selection logic of `update_user_path` only ever
produces three dedicated files (`.bashrc`, `.zshrc`,
`.config/fish/config.fish`), so no four pairwise-distinct dedicated
start-up files exist. -/
theorem C1_counterexample :
    ¬ ∃ p1 p2 p3 p4 : String,
        p1 ≠ p2 ∧ p1 ≠ p3 ∧ p1 ≠ p4 ∧ p2 ≠ p3 ∧ p2 ≠ p4 ∧ p3 ≠ p4 ∧
        dedicatedRcFile "/h" p1 ∧ dedicatedRcFile "/h" p2 ∧
        dedicatedRcFile "/h" p3 ∧ dedicatedRcFile "/h" p4 := by
  rintro ⟨p1, p2, p3, p4, h12, h13, h14, h23, h24, h34, d1, d2, d3, d4⟩
  rcases dedicatedRcFile_cases d1 with rfl | rfl | rfl <;>
    rcases dedicatedRcFile_cases d2 with rfl | rfl | rfl <;>
      rcases dedicatedRcFile_cases d3 with rfl | rfl | rfl <;>
        rcases dedicatedRcFile_cases d4 with rfl | rfl | rfl <;>
          first
          | exact h12 rfl
          | exact h13 rfl
          | exact h14 rfl
          | exact h23 rfl
          | exact h24 rfl
          | exact h34 rfl

/-- C1 (amended): `update_user_path` recognizes three shells — a SHELL
value containing `bash` selects `~/.bashrc`, else one containing `zsh`
selects `~/.zshrc`, else one containing `fish` selects
`~/.config/fish/config.fish` — and any other (in particular empty) SHELL
value selects the generic fallback `~/.profile`; moreover
`update_user_path` never modifies any file other than the selected
start-up file and its backup. -/
theorem C1_thm (home shell : String) :
    (strContains shell "bash" = true →
      shell_rc_path home shell = home ++ "/.bashrc") ∧
    (strContains shell "bash" = false → strContains shell "zsh" = true →
      shell_rc_path home shell = home ++ "/.zshrc") ∧
    (strContains shell "bash" = false → strContains shell "zsh" = false →
      strContains shell "fish" = true →
      shell_rc_path home shell = home ++ "/.config/fish/config.fish") ∧
    (strContains shell "bash" = false → strContains shell "zsh" = false →
      strContains shell "fish" = false →
      shell_rc_path home shell = home ++ "/.profile") ∧
    (∀ bin_dir path fs p, p ≠ shell_rc_path home shell →
      p ≠ shell_rc_path home shell ++ ".seekly_bak" →
      lookupFile (update_user_path_unix home bin_dir ⟨shell, path⟩ fs).2 p =
        lookupFile fs p) := by
  refine ⟨?_, ?_, ?_, ?_, ?_⟩
  · intro h1
    simp [shell_rc_path, h1]
  · intro h1 h2
    simp [shell_rc_path, h1, h2]
  · intro h1 h2 h3
    simp [shell_rc_path, h1, h2, h3]
  · intro h1 h2 h3
    simp [shell_rc_path, h1, h2, h3]
  · intro bin_dir path fs p hrc hbak
    unfold update_user_path_unix
    dsimp only
    split
    · rfl
    · split
      · exact lookupFile_backupStep_other fs _ p hbak
      · rw [lookupFile_appendFile_ne _ _ hrc]
        exact lookupFile_backupStep_other fs _ p hbak

/-- C1 witness: concrete SHELL values exercising each selection branch,
and a concrete run showing an unrelated file is untouched. -/
theorem C1_witness :
    shell_rc_path "/home/u" "/bin/bash" = "/home/u/.bashrc" ∧
    shell_rc_path "/home/u" "/usr/bin/zsh" = "/home/u/.zshrc" ∧
    shell_rc_path "/home/u" "/usr/bin/fish" = "/home/u/.config/fish/config.fish" ∧
    shell_rc_path "/home/u" "/bin/tcsh" = "/home/u/.profile" ∧
    lookupFile (update_user_path_unix "/home/u" "/x" ⟨"/bin/tcsh", "/usr"⟩
        [("/etc/hosts", "h")]).2 "/etc/hosts" =
      lookupFile [("/etc/hosts", "h")] "/etc/hosts" :=
  ⟨(C1_thm "/home/u" "/bin/bash").1 (by decide),
   (C1_thm "/home/u" "/usr/bin/zsh").2.1 (by decide) (by decide),
   (C1_thm "/home/u" "/usr/bin/fish").2.2.1 (by decide) (by decide) (by decide),
   (C1_thm "/home/u" "/bin/tcsh").2.2.2.1 (by decide) (by decide) (by decide),
   (C1_thm "/home/u" "/bin/tcsh").2.2.2.2 "/x" "/usr" [("/etc/hosts", "h")]
     "/etc/hosts" (by decide) (by decide)⟩

/-! ## Claim C2: PATH check and conditional append -/

/-- C2 counterexample: `update_user_path` tests "already on PATH" by plain
substring containment, not by membership in the list of PATH entries.
With PATH `"/bin"` and `bin_dir` `"/b"`, the directory is not a PATH
entry and the selected start-up file does not exist (so it certainly does
not contain the string), yet the function returns `True` without touching
the filesystem — no export statement is appended. -/
theorem C2_counterexample :
    "/b" ∉ pathEntries "/bin" ∧
    lookupFile ([] : FSModel) (shell_rc_path "/h" "") = none ∧
    update_user_path_unix "/h" "/b" ⟨"", "/bin"⟩ [] = (true, []) := by
  refine ⟨?_, rfl, by decide⟩
  decide

/-- C2 (amended): on a non-Windows system, `update_user_path` first tests
whether `bin_dir` occurs as a substring of the PATH string (not whether it
is one of PATH's directory entries); when it does, the function returns
success without modifying any file, and otherwise the export/set statement
is appended to the selected start-up file if and only if `bin_dir` is not
already present verbatim in that file. -/
theorem C2_thm (home bin_dir : String) (env : EnvVars) (fs : FSModel) :
    (strContains env.pathVar bin_dir = true →
      update_user_path_unix home bin_dir env fs = (true, fs)) ∧
    (strContains env.pathVar bin_dir = false →
      (update_user_path_unix home bin_dir env fs).1 = true ∧
      (fileHasStr fs (shell_rc_path home env.shellVar) bin_dir = true →
        lookupFile (update_user_path_unix home bin_dir env fs).2
            (shell_rc_path home env.shellVar) =
          lookupFile fs (shell_rc_path home env.shellVar)) ∧
      (fileHasStr fs (shell_rc_path home env.shellVar) bin_dir = false →
        lookupFile (update_user_path_unix home bin_dir env fs).2
            (shell_rc_path home env.shellVar) =
          some ((lookupFile fs (shell_rc_path home env.shellVar)).getD "" ++
            exportLine env.shellVar bin_dir))) := by
  constructor
  · intro h
    unfold update_user_path_unix
    simp [h]
  · intro h
    refine ⟨update_user_path_unix_fst home bin_dir env fs, ?_, ?_⟩
    · intro hHas
      unfold update_user_path_unix
      dsimp only
      rw [h]
      simp only [Bool.false_eq_true, if_false]
      rw [fileHasStr_backupStep fs _ bin_dir, hHas]
      simp only [if_true]
      exact lookupFile_backupStep fs _
    · intro hNot
      unfold update_user_path_unix
      dsimp only
      rw [h]
      simp only [Bool.false_eq_true, if_false]
      rw [fileHasStr_backupStep fs _ bin_dir, hNot]
      simp only [Bool.false_eq_true, if_false]
      rw [lookupFile_appendFile_self, lookupFile_backupStep fs _]

/-- C2 witness: a run short-circuited by the PATH substring test, and a
run that appends the export block to a missing `~/.profile`. -/
theorem C2_witness :
    update_user_path_unix "/h" "/b" ⟨"", "/usr:/b:/opt"⟩ [("/f", "c")] =
      (true, [("/f", "c")]) ∧
    lookupFile (update_user_path_unix "/h" "/x" ⟨"", "/usr"⟩ []).2
        (shell_rc_path "/h" "") =
      some ((lookupFile ([] : FSModel) (shell_rc_path "/h" "")).getD "" ++
        exportLine "" "/x") :=
  ⟨(C2_thm "/h" "/b" ⟨"", "/usr:/b:/opt"⟩ [("/f", "c")]).1 (by decide),
   ((C2_thm "/h" "/x" ⟨"", "/usr"⟩ []).2 (by decide)).2.2 (by decide)⟩

/-! ## Claim C3: repeated runs append only once -/

/-- C3: running the POSIX `update_user_path` twice with the same `bin_dir`
and environment never produces two copies of the export block — the
second run returns `True` and leaves the content of the selected start-up
file exactly as the first run left it, because the directory string is
then present verbatim in the file. -/
theorem C3_thm (home bin_dir : String) (env : EnvVars) (fs : FSModel)
    (hp : strContains env.pathVar bin_dir = false) :
    (update_user_path_unix home bin_dir env
        (update_user_path_unix home bin_dir env fs).2).1 = true ∧
    lookupFile (update_user_path_unix home bin_dir env
        (update_user_path_unix home bin_dir env fs).2).2
        (shell_rc_path home env.shellVar) =
      lookupFile (update_user_path_unix home bin_dir env fs).2
        (shell_rc_path home env.shellVar) := by
  have key : fileHasStr (update_user_path_unix home bin_dir env fs).2
      (shell_rc_path home env.shellVar) bin_dir = true := by
    unfold update_user_path_unix
    dsimp only
    rw [hp]
    simp only [Bool.false_eq_true, if_false]
    by_cases hHas :
        fileHasStr (backupStep fs (shell_rc_path home env.shellVar))
          (shell_rc_path home env.shellVar) bin_dir = true
    · rw [hHas]
      simpa using hHas
    · rw [Bool.of_not_eq_true hHas]
      simp only [Bool.false_eq_true, if_false]
      unfold fileHasStr
      rw [lookupFile_appendFile_self]
      exact strContains_append_right _ (exportLine_contains env.shellVar bin_dir)
  refine ⟨update_user_path_unix_fst home bin_dir env _, ?_⟩
  conv_lhs =>
    rw [update_user_path_unix]
  dsimp only
  rw [hp]
  simp only [Bool.false_eq_true, if_false]
  rw [fileHasStr_backupStep, key]
  simp only [if_true]
  exact lookupFile_backupStep _ _

/-- C3 witness: two concrete runs on an initially empty filesystem. -/
theorem C3_witness :
    (update_user_path_unix "/h" "/x" ⟨"", "/usr"⟩
        (update_user_path_unix "/h" "/x" ⟨"", "/usr"⟩ []).2).1 = true ∧
    lookupFile (update_user_path_unix "/h" "/x" ⟨"", "/usr"⟩
        (update_user_path_unix "/h" "/x" ⟨"", "/usr"⟩ []).2).2
        (shell_rc_path "/h" "") =
      lookupFile (update_user_path_unix "/h" "/x" ⟨"", "/usr"⟩ []).2
        (shell_rc_path "/h" "") :=
  C3_thm "/h" "/x" ⟨"", "/usr"⟩ [] (by decide)

/-! ## Claim C4: backup created once, never overwritten -/

/-- C4: when a run of the POSIX `update_user_path` gets past the PATH
check, (a) if the selected start-up file exists with content `c` and no
backup exists, the sibling `<file>.seekly_bak` is created with content
`c`; (b) if the backup already exists with content `c`, it still has
content `c` afterwards — the backup is never overwritten. -/
theorem C4_thm (home bin_dir : String) (env : EnvVars) (fs : FSModel)
    (c : String) (hp : strContains env.pathVar bin_dir = false) :
    (lookupFile fs (shell_rc_path home env.shellVar) = some c →
      lookupFile fs (shell_rc_path home env.shellVar ++ ".seekly_bak") = none →
      lookupFile (update_user_path_unix home bin_dir env fs).2
        (shell_rc_path home env.shellVar ++ ".seekly_bak") = some c) ∧
    (lookupFile fs (shell_rc_path home env.shellVar ++ ".seekly_bak") = some c →
      lookupFile (update_user_path_unix home bin_dir env fs).2
        (shell_rc_path home env.shellVar ++ ".seekly_bak") = some c) := by
  constructor
  · intro hrc hbak
    have hbs : backupStep fs (shell_rc_path home env.shellVar) =
        setFile fs (shell_rc_path home env.shellVar ++ ".seekly_bak") c := by
      unfold backupStep copyFile fileExistsB
      rw [hrc, hbak]
      simp
    have hb2 : lookupFile (backupStep fs (shell_rc_path home env.shellVar))
        (shell_rc_path home env.shellVar ++ ".seekly_bak") = some c := by
      rw [hbs]
      exact lookupFile_setFile_self fs _ c
    unfold update_user_path_unix
    dsimp only
    rw [hp]
    simp only [Bool.false_eq_true, if_false]
    split
    · exact hb2
    · rw [lookupFile_appendFile_ne _ _ (Ne.symm (rc_ne_backup _))]
      exact hb2
  · intro hbak
    have hbs : backupStep fs (shell_rc_path home env.shellVar) = fs := by
      unfold backupStep fileExistsB
      rw [hbak]
      simp
    unfold update_user_path_unix
    dsimp only
    rw [hp]
    simp only [Bool.false_eq_true, if_false]
    rw [hbs]
    split
    · exact hbak
    · rw [lookupFile_appendFile_ne _ _ (Ne.symm (rc_ne_backup _))]
      exact hbak

/-- C4 witness: a first edit creating the backup, and a later run leaving
an existing backup untouched. -/
theorem C4_witness :
    lookupFile (update_user_path_unix "/h" "/x" ⟨"", "/usr"⟩
        [("/h/.profile", "stuff")]).2
        (shell_rc_path "/h" "" ++ ".seekly_bak") = some "stuff" ∧
    lookupFile (update_user_path_unix "/h" "/x" ⟨"", "/usr"⟩
        [("/h/.profile", "stuff"), ("/h/.profile.seekly_bak", "old")]).2
        (shell_rc_path "/h" "" ++ ".seekly_bak") = some "old" :=
  ⟨(C4_thm "/h" "/x" ⟨"", "/usr"⟩ [("/h/.profile", "stuff")] "stuff"
      (by decide)).1 (by decide) (by decide),
   (C4_thm "/h" "/x" ⟨"", "/usr"⟩
      [("/h/.profile", "stuff"), ("/h/.profile.seekly_bak", "old")] "old"
      (by decide)).2 (by decide)⟩

/-! ## `pipx_install.install_pipx` -/

/-- The three pipx installation strategies of `install_pipx`
(`pipx_install.py` lines 87-120). -/
inductive Strat
  | pip
  | apt
  | brew
  deriving DecidableEq, Repr

/-- Outcomes of the probes and subprocess calls `install_pipx` can make,
supplied as input to the embedding. -/
structure SysCtx where
  pipUserSuccess : Bool
  pipUserOutput : String
  debianMarker : Bool
  aptSuccess : Bool
  aptOutput : String
  isDarwin : Bool
  brewOnPath : Bool
  brewSuccess : Bool
  brewOutput : String

/-- Result of `install_pipx`: the returned boolean, the ordered list of
strategies whose install command was actually run, and the terminal
failure message printed when the function returns `False`. -/
structure IPResult where
  ok : Bool
  attempted : List Strat
  failMsg : Option String
  deriving DecidableEq, Repr

/-- The terminal failure report (`pipx_install.py` line 119). -/
def failText (output : String) : String :=
  "Failed to install pipx. Error details:\n" ++ output

/-- Strategy 3 and the terminal failure of `install_pipx`
(`pipx_install.py` lines 111-120); `tried` and `output` are the strategies
already attempted and the last captured output. -/
def installPipxBrew (c : SysCtx) (tried : List Strat) (output : String) :
    IPResult :=
  if c.isDarwin && c.brewOnPath then
    let output := c.brewOutput
    if c.brewSuccess then ⟨true, tried ++ [Strat.brew], none⟩
    else ⟨false, tried ++ [Strat.brew], some (failText output)⟩
  else ⟨false, tried, some (failText output)⟩

/-- `install_pipx` (`pipx_install.py` lines 87-120): user-scoped pip
install, then apt on Debian-family systems, then Homebrew on macOS when
`brew` is present, stopping at the first success. -/
def install_pipx (c : SysCtx) : IPResult :=
  let output := c.pipUserOutput
  if c.pipUserSuccess then ⟨true, [Strat.pip], none⟩
  else if c.debianMarker then
    let output := c.aptOutput
    if c.aptSuccess then ⟨true, [Strat.pip, Strat.apt], none⟩
    else installPipxBrew c [Strat.pip, Strat.apt] output
  else installPipxBrew c [Strat.pip] output

/-! ## Claim C5: strategy order, short-circuit, terminal failure -/

/-- C5: `install_pipx` tries pip, apt (Debian only) and brew (macOS with
brew only) in that fixed order, stopping at the first success — when the
pip strategy succeeds nothing else is attempted — each failure falls
through to the next applicable strategy, and when every applicable
strategy has failed it returns `False` with a single terminal failure
message containing the last captured error text. -/
theorem C5_thm (c : SysCtx) :
    (c.pipUserSuccess = true →
      install_pipx c = ⟨true, [Strat.pip], none⟩) ∧
    (c.pipUserSuccess = false → c.debianMarker = true → c.aptSuccess = true →
      install_pipx c = ⟨true, [Strat.pip, Strat.apt], none⟩) ∧
    (c.pipUserSuccess = false → (c.debianMarker = true → c.aptSuccess = false) →
      (c.isDarwin && c.brewOnPath) = true → c.brewSuccess = true →
      install_pipx c =
        ⟨true,
         [Strat.pip] ++ (if c.debianMarker then [Strat.apt] else []) ++
           [Strat.brew], none⟩) ∧
    (c.pipUserSuccess = false → (c.debianMarker = true → c.aptSuccess = false) →
      ((c.isDarwin && c.brewOnPath) = true → c.brewSuccess = false) →
      install_pipx c =
        ⟨false,
         [Strat.pip] ++ (if c.debianMarker then [Strat.apt] else []) ++
           (if c.isDarwin && c.brewOnPath then [Strat.brew] else []),
         some (failText
           (if c.isDarwin && c.brewOnPath then c.brewOutput
            else if c.debianMarker then c.aptOutput
            else c.pipUserOutput))⟩) := by
  refine ⟨?_, ?_, ?_, ?_⟩
  · intro h1
    simp [install_pipx, h1]
  · intro h1 h2 h3
    simp [install_pipx, h1, h2, h3]
  · intro h1 h2 h3 h4
    by_cases hd : c.debianMarker = true
    · have ha := h2 hd
      simp [install_pipx, installPipxBrew, h1, hd, ha, h3, h4]
    · simp only [Bool.not_eq_true] at hd
      simp [install_pipx, installPipxBrew, h1, hd, h3, h4]
  · intro h1 h2 h3
    by_cases hb : (c.isDarwin && c.brewOnPath) = true
    · have hbs := h3 hb
      by_cases hd : c.debianMarker = true
      · have ha := h2 hd
        simp [install_pipx, installPipxBrew, h1, hd, ha, hb, hbs]
      · simp only [Bool.not_eq_true] at hd
        simp [install_pipx, installPipxBrew, h1, hd, hb, hbs]
    · simp only [Bool.not_eq_true] at hb
      by_cases hd : c.debianMarker = true
      · have ha := h2 hd
        simp [install_pipx, installPipxBrew, h1, hd, ha, hb]
      · simp only [Bool.not_eq_true] at hd
        simp [install_pipx, installPipxBrew, h1, hd, hb]

/-- C5 witness: a context where the pip strategy succeeds (apt and brew
never run) and one where every applicable strategy fails. -/
theorem C5_witness :
    install_pipx ⟨true, "", true, true, "", true, true, true, ""⟩ =
      ⟨true, [Strat.pip], none⟩ ∧
    install_pipx ⟨false, "pipErr", true, false, "aptErr", false, false,
        false, ""⟩ =
      ⟨false, [Strat.pip, Strat.apt], some (failText "aptErr")⟩ := by
  constructor
  · exact (C5_thm ⟨true, "", true, true, "", true, true, true, ""⟩).1 rfl
  · have h := (C5_thm ⟨false, "pipErr", true, false, "aptErr", false, false,
        false, ""⟩).2.2.2 rfl (fun _ => rfl) (fun hx => by cases hx)
    simpa using h

/-! ## `install.main`: environment classifier -/

/-- The environment snapshot built by `install.check_environment`
(`install.py` lines 19-47), restricted to the fields the recommendation
logic of `main` reads. -/
structure EnvInfo where
  is_venv : Bool
  is_linux : Bool
  is_windows : Bool
  is_macos : Bool
  is_debian_based : Bool
  is_externally_managed : Bool
  can_write_to_site_packages : Bool

/-- The installation action `main` ends up recommending / performing. -/
inductive Action
  | directPip
  | usePipx
  | makeVenv
  | userPip
  deriving DecidableEq, Repr

/-- The decision logic of `install.main` (`install.py` lines 141-183).
`choice` is the operator's raw interactive input; Python's
`input(...) or "1"` maps empty input to `"1"`. -/
def mainClassify (env : EnvInfo) (choice : String) : Action :=
  if env.is_venv then Action.directPip
  else if env.is_externally_managed then
    let c := if choice = "" then "1" else choice
    if c = "1" then Action.usePipx else Action.makeVenv
  else if !env.can_write_to_site_packages then
    let c := if choice = "" then "1" else choice
    if c = "1" then Action.makeVenv else Action.userPip
  else
    let c := if choice = "" then "1" else choice
    if c = "1" then Action.makeVenv
    else if c = "2" then Action.usePipx
    else Action.directPip

/-! ## Claim C6: externally managed and not in a venv recommends pipx -/

/-- C6: when the externally-managed marker is set and the
virtual-environment flag is false, `main` recommends pipx first: empty
operator input (and the explicit choice "1") takes the pipx path, and any
other choice takes the virtual-environment fallback. -/
theorem C6_thm (env : EnvInfo) (choice : String)
    (hv : env.is_venv = false) (he : env.is_externally_managed = true) :
    mainClassify env "" = Action.usePipx ∧
    mainClassify env "1" = Action.usePipx ∧
    (choice ≠ "" → choice ≠ "1" →
      mainClassify env choice = Action.makeVenv) := by
  refine ⟨?_, ?_, ?_⟩
  · simp [mainClassify, hv, he]
  · simp [mainClassify, hv, he]
  · intro h0 h1
    simp [mainClassify, hv, he, h0, h1]

/-- C6 witness: a concrete externally-managed, non-venv record. -/
theorem C6_witness :
    mainClassify ⟨false, true, false, false, true, true, true⟩ "" =
      Action.usePipx ∧
    mainClassify ⟨false, true, false, false, true, true, true⟩ "2" =
      Action.makeVenv :=
  ⟨(C6_thm ⟨false, true, false, false, true, true, true⟩ "2" rfl rfl).1,
   (C6_thm ⟨false, true, false, false, true, true, true⟩ "2" rfl rfl).2.2
     (by decide) (by decide)⟩

/-! ## Claim C7: the virtual-environment branch has highest priority -/

/-- C7: whenever the virtual-environment flag is true, `main` recommends
installing directly with pip, regardless of every other flag and of the
operator's input: the venv branch is tested first and never prompts. -/
theorem C7_thm (env : EnvInfo) (choice : String) (hv : env.is_venv = true) :
    mainClassify env choice = Action.directPip := by
  simp [mainClassify, hv]

/-- C7 witness: a venv record with every other flag adversarial. -/
theorem C7_witness :
    mainClassify ⟨true, true, false, false, true, true, false⟩ "2" =
      Action.directPip :=
  C7_thm ⟨true, true, false, false, true, true, false⟩ "2" rfl

/-! ## `run_command` in both scripts -/

/-- What the underlying `subprocess.run` call did: either it completed
with an exit code and captured streams, or it raised an exception whose
text is `msg`. -/
inductive SubprocOutcome
  | completed (code : Int) (stdout stderr : String)
  | raised (msg : String)

/-- `pipx_install.run_command` (`pipx_install.py` lines 23-50): returns a
pair `(success, output)`; with `capture` the output is stdout and stderr
concatenated, otherwise it is empty; any exception is converted into
`(False, str(e))`. -/
def run_command_pipx (r : SubprocOutcome) (capture : Bool) :
    Bool × String :=
  match r with
  | .completed code out err =>
    if capture then (code == 0, out ++ err) else (code == 0, "")
  | .raised msg => (false, msg)

/-- The structured result dict of `install.run_command`
(`install.py` lines 60-72). -/
structure CmdResult where
  success : Bool
  output : String
  error : String
  code : Int
  deriving DecidableEq, Repr

/-- `install.run_command` (`install.py` lines 50-72): returns a dict with
the success flag, captured stdout, captured stderr and the exit code; a
`CalledProcessError` is converted into a failure record with code 1. -/
def run_command_install (r : SubprocOutcome) : CmdResult :=
  match r with
  | .completed code out err => ⟨code == 0, out, err, code⟩
  | .raised msg => ⟨false, "", msg, 1⟩

/-! ## Claim C8: run_command result structure -/

/-- C8 counterexample: the claim says the structured result carries the
success flag, the exit code and the combined output.  Neither variant
carries all three.  `pipx_install.run_command` does not carry the exit
code: two failing runs that differ only in exit code (2 versus 3) return
identical results.  `install.run_command` does not combine the output:
for streams "A" and "B" it stores them separately, not as "AB". -/
theorem C8_counterexample :
    run_command_pipx (.completed 2 "" "") true =
      run_command_pipx (.completed 3 "" "") true ∧
    (run_command_install (.completed 1 "A" "B")).output = "A" ∧
    (run_command_install (.completed 1 "A" "B")).error = "B" := by
  refine ⟨?_, rfl, rfl⟩
  decide

/-- C8 (amended): for every subprocess outcome neither `run_command`
variant raises — each is a total function into a structured result — and
the success flag is true exactly when the command completed with exit
code zero.  `install.run_command` additionally carries the exit code and
the two captured streams separately (an exception becomes a failure
record with code 1); `pipx_install.run_command` carries the combined
stdout+stderr when capturing (and an exception's text), but not the exit
code. -/
theorem C8_thm (code : Int) (out err msg : String) (capture : Bool) :
    run_command_pipx (.completed code out err) true =
      (decide (code = 0), out ++ err) ∧
    run_command_pipx (.completed code out err) false =
      (decide (code = 0), "") ∧
    run_command_pipx (.raised msg) capture = (false, msg) ∧
    run_command_install (.completed code out err) =
      ⟨decide (code = 0), out, err, code⟩ ∧
    run_command_install (.raised msg) = ⟨false, "", msg, 1⟩ := by
  refine ⟨?_, ?_, ?_, ?_, rfl⟩
  · by_cases h : code = 0 <;> simp [run_command_pipx, h]
  · by_cases h : code = 0 <;> simp [run_command_pipx, h]
  · cases capture <;> rfl
  · by_cases h : code = 0 <;> simp [run_command_install, h]

/-! ## `pipx_install.ensure_seekly_runnable`, POSIX branch -/

/-- Ambient inputs of `ensure_seekly_runnable` on a POSIX system:
whether `seekly` resolves via `command -v`, the outcome of the
`pipx environment --value PIPX_BIN_DIR` query, the home directory and the
environment variables. -/
structure SeeklyCtx where
  seeklyOnPath : Bool
  pipxQueryOk : Bool
  pipxQueryOut : String
  home : String
  env : EnvVars

/-- `os.path.join(a, b)` for a relative second component (the script only
ever joins with the fixed name `"seekly"`). -/
def joinPath (a b : String) : String :=
  if a = "" then b
  else if a.back = '/' then a ++ b
  else a ++ "/" ++ b

/-- `get_pipx_bin_dir` (`pipx_install.py` lines 190-206), POSIX default:
use the stripped query output when the query succeeded and the stripped
output is non-empty, else `~/.local/bin`. -/
def get_pipx_bin_dir (c : SeeklyCtx) : String :=
  if c.pipxQueryOk && !(c.pipxQueryOut.trim.isEmpty) then c.pipxQueryOut.trim
  else c.home ++ "/.local/bin"

/-- The fallback scan over the PATH entries
(`pipx_install.py` lines 230-238): the first directory containing a
`seekly` file wins. -/
def findSeeklyInPath (fs : FSModel) : List String → Option (String × String)
  | [] => none
  | d :: rest =>
    if fileExistsB fs (joinPath d "seekly") then some (joinPath d "seekly", d)
    else findSeeklyInPath fs rest

/-- `ensure_seekly_runnable` (`pipx_install.py` lines 209-245) on a POSIX
system, returning the `(success, bin_path)` pair together with the
filesystem as the run leaves it. -/
def ensure_seekly_runnable (c : SeeklyCtx) (fs : FSModel) :
    (Bool × String) × FSModel :=
  if c.seeklyOnPath then ((true, ""), fs)
  else
    let bin_dir := get_pipx_bin_dir c
    let seekly_path := joinPath bin_dir "seekly"
    let found :=
      if fileExistsB fs seekly_path then (seekly_path, bin_dir)
      else
        match findSeeklyInPath fs (pathEntries c.env.pathVar) with
        | some (p, d) => (p, d)
        | none => ("", bin_dir)
    if found.1 = "" then ((false, found.2), fs)
    else
      let r := update_user_path_unix c.home found.2 c.env fs
      ((r.1, found.2), r.2)

/-! ## Claim C9: early return when seekly is already on PATH -/

/-- C9: when the `seekly` command already resolves on the system PATH,
`ensure_seekly_runnable` returns `(True, "")` and performs no filesystem
modification at all — no start-up file is read, backed up or appended and
no PATH update is attempted. -/
theorem C9_thm (c : SeeklyCtx) (fs : FSModel) (h : c.seeklyOnPath = true) :
    ensure_seekly_runnable c fs = ((true, ""), fs) := by
  unfold ensure_seekly_runnable
  simp [h]

/-- C9 witness: a concrete context with `seekly` findable and a non-empty
filesystem left untouched. -/
theorem C9_witness :
    ensure_seekly_runnable ⟨true, true, "/opt/bin", "/h", ⟨"/bin/bash", "/usr"⟩⟩
        [("/h/.bashrc", "x")] =
      ((true, ""), [("/h/.bashrc", "x")]) :=
  C9_thm ⟨true, true, "/opt/bin", "/h", ⟨"/bin/bash", "/usr"⟩⟩
    [("/h/.bashrc", "x")] rfl

/-! ## Claim C10: the Windows branch always reports success -/

/-- C10: on Windows `update_user_path` returns `True` for every
`bin_dir`: the result does not depend on the exit status of the spawned
`setx` command (a failed persistence attempt is never reported), and
`;bin_dir` is appended to the in-process PATH variable. -/
theorem C10_thm (bin_dir path : String) (e1 e2 : Int) :
    update_user_path_windows bin_dir path e1 =
      update_user_path_windows bin_dir path e2 ∧
    (update_user_path_windows bin_dir path e1).1 = true ∧
    (update_user_path_windows bin_dir path e1).2 =
      path ++ ";" ++ bin_dir := by
  exact ⟨rfl, rfl, rfl⟩

end Seekly
